import Mathlib

/-!
Shallow embedding of the six AI action handlers of
`src/server/controllers/aiController.js` (Quick-AI backend).

Each handler is embedded as a pure function from the request context
(authenticated identity, plan tier, free-usage counter, body/file payload)
and a record of external-gateway oracles to a pair of
(HTTP response, trace of performed effects).

External calls that may throw in JavaScript are modelled as oracles of type
`Except String α`: `Except.error e` stands for a thrown exception whose
`error.message` is `e`; the handler's `try/catch` is embedded by matching on
the oracle result and returning the failure envelope on `error`.

The trace records, in program order:
  - `extCall gw` whenever a delegated call to external gateway `gw` is issued
    (the event is recorded even when the call throws, since the request was
    made);
  - `insert c` when a row `c` is successfully inserted into `creations`
    (a throwing insert records no `insert` event: no row was written);
  - `counterUpdate uid n` when the stored free-usage metadata of user `uid`
    is successfully overwritten with value `n`.

`res.json(body)` in Express sends HTTP status 200 when no status was set;
no handler in the controller ever sets a status, so every return site is
embedded with `statusCode = 200`.
-/

namespace QuickAI

/-- A row of the `creations` table as inserted by the controller.
`publish` is the column value actually stored: the article, blog-title,
background-removal, object-removal and resume handlers do not pass it, and
the schema default is `false`. -/
structure Creation where
  user_id : String
  prompt : String
  content : String
  type : String
  publish : Bool
deriving Repr, DecidableEq

/-- An observable side effect performed by a handler. -/
inductive Event where
  | extCall (gateway : String)
  | insert (c : Creation)
  | counterUpdate (userId : String) (newValue : Nat)
deriving Repr, DecidableEq

/-- The JSON envelope sent with `res.json`, together with the HTTP status
code Express uses for it (200, since no handler sets a status). -/
structure HttpResponse where
  statusCode : Nat
  success : Bool
  content : Option String
  message : Option String
deriving Repr, DecidableEq

/-- `res.json({success: true, content})` -/
def jsonOk (content : String) : HttpResponse :=
  ⟨200, true, some content, none⟩

/-- `res.json({success: false, message})` -/
def jsonFail (message : String) : HttpResponse :=
  ⟨200, false, none, some message⟩

/-- Result of running one handler: the response sent and the effect trace. -/
structure HandlerRun where
  response : HttpResponse
  trace : List Event
deriving Repr, DecidableEq

/-- Oracles for every delegated call the controller makes, plus the pure
platform builtins it uses. A field of type `Except String α` models a call
that may throw with `error.message` equal to the carried string. -/
structure Gateways where
  /-- `AI.chat.completions.create` with a prompt and `max_tokens`;
  returns `response.choices[0].message.content`. -/
  chatCompletion : String → Nat → Except String String
  /-- `sql INSERT INTO creations ...` -/
  sqlInsertCreations : Creation → Except String Unit
  /-- `clerkClient.users.updateUserMetadata userId {privateMetadata: {free_usage: n}}` -/
  updateUserMetadata : String → Nat → Except String Unit
  /-- `axios.get url {responseType: arraybuffer}`, returning the body bytes. -/
  axiosGetImage : String → Except String String
  /-- `cloudinary.uploader.upload` of a base64 data URL; returns `secure_url`. -/
  cloudinaryUploadBase64 : String → Except String String
  /-- `cloudinary.uploader.upload` of a file path with the
  background-removal transformation; returns `secure_url`. -/
  cloudinaryUploadBgRemoval : String → Except String String
  /-- `cloudinary.uploader.upload` of a file path; returns `public_id`. -/
  cloudinaryUploadPath : String → Except String String
  /-- `cloudinary.url public_id {transformation: [{effect: gen_remove}], ...}`:
  local URL construction from a public id and the object description. -/
  cloudinaryUrl : String → String → String
  /-- `fs.readFileSync path`: local filesystem read of the uploaded file. -/
  readFileSync : String → Except String String
  /-- `pdf dataBuffer`: the pdf-parse library extracting `pdfData.text`. -/
  pdfParse : String → Except String String
  /-- `encodeURIComponent`: pure platform builtin. -/
  encodeURIComponent : String → String
  /-- `Buffer.from(data, binary).toString(base64)`: pure platform builtin. -/
  toBase64 : String → String

/-- "Limit reached. Upgrade to Continue." -/
def limitMsg : String := "Limit reached. Upgrade to Continue."

/-- "This feature is only available for premium subscriptions." -/
def premiumMsg : String := "This feature is only available for premium subscriptions."

/-- "No image file uploaded." -/
def noFileMsg : String := "No image file uploaded."

/-- "Resume file size exceeds 5MB limit." -/
def resumeSizeMsg : String := "Resume file size exceeds 5MB limit."

/-- The Node.js runtime TypeError message thrown by `resume.size` when
`req.file` is `undefined` in `resumeReview`. -/
def undefinedSizeMsg : String := "Cannot read properties of undefined (reading 'size')"

/-- An uploaded file as multer attaches it to `req.file`. -/
structure FileUpload where
  path : String
  size : Nat
deriving Repr, DecidableEq

/-- Request context of `generateArticle`. -/
structure ArticleReq where
  userId : String
  prompt : String
  length : Nat
  plan : String
  free_usage : Nat
deriving Repr, DecidableEq

/-- Request context of `generateBlogTitle`. -/
structure BlogTitleReq where
  userId : String
  prompt : String
  plan : String
  free_usage : Nat
deriving Repr, DecidableEq

/-- Request context of `generateImage`. `publish = none` models an omitted
`publish` field in the JSON body. -/
structure ImageReq where
  userId : String
  prompt : String
  publish : Option Bool
  plan : String
deriving Repr, DecidableEq

/-- Request context of `removeImageBackground` and `resumeReview`:
identity, plan and an optional uploaded file. -/
structure FileReq where
  userId : String
  plan : String
  file : Option FileUpload
deriving Repr, DecidableEq

/-- Request context of `removeImageObject`. -/
structure ObjectReq where
  userId : String
  object : String
  plan : String
  file : Option FileUpload
deriving Repr, DecidableEq

/-- Embedding of `generateArticle` (aiController.js lines 14-55). -/
def generateArticle (g : Gateways) (req : ArticleReq) : HandlerRun :=
  if req.plan ≠ "premium" ∧ 5 ≤ req.free_usage then
    ⟨jsonFail limitMsg, []⟩
  else
    match g.chatCompletion req.prompt req.length with
    | .error e => ⟨jsonFail e, [.extCall "gemini"]⟩
    | .ok content =>
      let row : Creation := ⟨req.userId, req.prompt, content, "article", false⟩
      match g.sqlInsertCreations row with
      | .error e => ⟨jsonFail e, [.extCall "gemini"]⟩
      | .ok _ =>
        if req.plan ≠ "premium" then
          match g.updateUserMetadata req.userId (req.free_usage + 1) with
          | .error e => ⟨jsonFail e, [.extCall "gemini", .insert row]⟩
          | .ok _ =>
            ⟨jsonOk content,
              [.extCall "gemini", .insert row,
               .counterUpdate req.userId (req.free_usage + 1)]⟩
        else
          ⟨jsonOk content, [.extCall "gemini", .insert row]⟩

/-- Embedding of `generateBlogTitle` (aiController.js lines 57-98);
identical to `generateArticle` except the fixed token budget 100 and the
row type `blog-title`. -/
def generateBlogTitle (g : Gateways) (req : BlogTitleReq) : HandlerRun :=
  if req.plan ≠ "premium" ∧ 5 ≤ req.free_usage then
    ⟨jsonFail limitMsg, []⟩
  else
    match g.chatCompletion req.prompt 100 with
    | .error e => ⟨jsonFail e, [.extCall "gemini"]⟩
    | .ok content =>
      let row : Creation := ⟨req.userId, req.prompt, content, "blog-title", false⟩
      match g.sqlInsertCreations row with
      | .error e => ⟨jsonFail e, [.extCall "gemini"]⟩
      | .ok _ =>
        if req.plan ≠ "premium" then
          match g.updateUserMetadata req.userId (req.free_usage + 1) with
          | .error e => ⟨jsonFail e, [.extCall "gemini", .insert row]⟩
          | .ok _ =>
            ⟨jsonOk content,
              [.extCall "gemini", .insert row,
               .counterUpdate req.userId (req.free_usage + 1)]⟩
        else
          ⟨jsonOk content, [.extCall "gemini", .insert row]⟩

/-- Embedding of `generateImage` (aiController.js lines 100-129). -/
def generateImage (g : Gateways) (req : ImageReq) : HandlerRun :=
  if req.plan ≠ "premium" then
    ⟨jsonFail premiumMsg, []⟩
  else
    let imageUrl :=
      "https://image.pollinations.ai/prompt/" ++ g.encodeURIComponent req.prompt
        ++ "?width=1024&height=1024&nologo=true"
    match g.axiosGetImage imageUrl with
    | .error e => ⟨jsonFail e, [.extCall "pollinations"]⟩
    | .ok data =>
      let base64Image := "data:image/png;base64," ++ g.toBase64 data
      match g.cloudinaryUploadBase64 base64Image with
      | .error e => ⟨jsonFail e, [.extCall "pollinations", .extCall "cloudinary"]⟩
      | .ok secure_url =>
        let row : Creation :=
          ⟨req.userId, req.prompt, secure_url, "image", req.publish.getD false⟩
        match g.sqlInsertCreations row with
        | .error e => ⟨jsonFail e, [.extCall "pollinations", .extCall "cloudinary"]⟩
        | .ok _ =>
          ⟨jsonOk secure_url,
            [.extCall "pollinations", .extCall "cloudinary", .insert row]⟩

/-- Embedding of `removeImageBackground` (aiController.js lines 131-162). -/
def removeImageBackground (g : Gateways) (req : FileReq) : HandlerRun :=
  if req.plan ≠ "premium" then
    ⟨jsonFail premiumMsg, []⟩
  else
    match req.file with
    | none => ⟨jsonFail noFileMsg, []⟩
    | some f =>
      match g.cloudinaryUploadBgRemoval f.path with
      | .error e => ⟨jsonFail e, [.extCall "cloudinary"]⟩
      | .ok secure_url =>
        let row : Creation :=
          ⟨req.userId, "Remove background from image", secure_url, "image", false⟩
        match g.sqlInsertCreations row with
        | .error e => ⟨jsonFail e, [.extCall "cloudinary"]⟩
        | .ok _ => ⟨jsonOk secure_url, [.extCall "cloudinary", .insert row]⟩

/-- Embedding of `removeImageObject` (aiController.js lines 164-194).
`cloudinary.url` is local URL construction, not a network call, so it
records no `extCall` event. -/
def removeImageObject (g : Gateways) (req : ObjectReq) : HandlerRun :=
  if req.plan ≠ "premium" then
    ⟨jsonFail premiumMsg, []⟩
  else
    match req.file with
    | none => ⟨jsonFail noFileMsg, []⟩
    | some f =>
      match g.cloudinaryUploadPath f.path with
      | .error e => ⟨jsonFail e, [.extCall "cloudinary"]⟩
      | .ok public_id =>
        let imageUrl := g.cloudinaryUrl public_id req.object
        let row : Creation :=
          ⟨req.userId, "Removed " ++ req.object ++ " from image", imageUrl,
            "image", false⟩
        match g.sqlInsertCreations row with
        | .error e => ⟨jsonFail e, [.extCall "cloudinary"]⟩
        | .ok _ => ⟨jsonOk imageUrl, [.extCall "cloudinary", .insert row]⟩

/-- The fixed review prompt template of `resumeReview`. -/
def resumePromptTemplate (text : String) : String :=
  "Review the following resume and provide constructive feedback on its strengths, weaknesses and areas for improvement. Resume Content:\n\n" ++ text

/-- Embedding of `resumeReview` (aiController.js lines 196-236).
There is no dedicated file-presence check: `resume.size` on an absent file
throws a TypeError which the catch block converts to a failure envelope
carrying the runtime message. `fs.readFileSync` is a local filesystem read,
so it records no `extCall` event; the pdf-parse extraction and the chat
completion each record one. -/
def resumeReview (g : Gateways) (req : FileReq) : HandlerRun :=
  if req.plan ≠ "premium" then
    ⟨jsonFail premiumMsg, []⟩
  else
    match req.file with
    | none => ⟨jsonFail undefinedSizeMsg, []⟩
    | some resume =>
      if 5 * 1024 * 1024 < resume.size then
        ⟨jsonFail resumeSizeMsg, []⟩
      else
        match g.readFileSync resume.path with
        | .error e => ⟨jsonFail e, []⟩
        | .ok dataBuffer =>
          match g.pdfParse dataBuffer with
          | .error e => ⟨jsonFail e, [.extCall "pdf-parse"]⟩
          | .ok text =>
            match g.chatCompletion (resumePromptTemplate text) 1000 with
            | .error e => ⟨jsonFail e, [.extCall "pdf-parse", .extCall "gemini"]⟩
            | .ok content =>
              let row : Creation :=
                ⟨req.userId, "Review the uploaded resume", content,
                  "resume-review", false⟩
              match g.sqlInsertCreations row with
              | .error e => ⟨jsonFail e, [.extCall "pdf-parse", .extCall "gemini"]⟩
              | .ok _ =>
                ⟨jsonOk content,
                  [.extCall "pdf-parse", .extCall "gemini", .insert row]⟩

/-- The creation rows successfully inserted along a trace, in order. -/
def insertsOf (t : List Event) : List Creation :=
  t.filterMap fun e =>
    match e with
    | .insert c => some c
    | _ => none

/-- The successful counter overwrites along a trace: pairs of the user id
and the new stored value, in order. -/
def counterUpdatesOf (t : List Event) : List (String × Nat) :=
  t.filterMap fun e =>
    match e with
    | .counterUpdate u n => some (u, n)
    | _ => none

/-- Number of delegated external-gateway calls issued along a trace. -/
def extCallCount (t : List Event) : Nat :=
  (t.filter fun e =>
    match e with
    | .extCall _ => true
    | _ => false).length

/-- A concrete all-succeeding gateway record, used to evaluate the handlers
on concrete requests. -/
def gOK : Gateways where
  chatCompletion := fun _ _ => .ok "generated text"
  sqlInsertCreations := fun _ => .ok ()
  updateUserMetadata := fun _ _ => .ok ()
  axiosGetImage := fun _ => .ok "rawbytes"
  cloudinaryUploadBase64 := fun _ => .ok "https://cdn.example/img.png"
  cloudinaryUploadBgRemoval := fun _ => .ok "https://cdn.example/bg.png"
  cloudinaryUploadPath := fun _ => .ok "pubid1"
  cloudinaryUrl := fun pid obj => "https://cdn.example/" ++ pid ++ "/" ++ obj
  readFileSync := fun _ => .ok "pdfbytes"
  pdfParse := fun _ => .ok "resume text"
  encodeURIComponent := fun s => s
  toBase64 := fun s => s

/-- A gateway record identical to `gOK` except every `creations` insert
throws. -/
def gInsertFail : Gateways :=
  { gOK with sqlInsertCreations := fun _ => .error "insert failed" }

/-- A trace of a count-limited handler is always a prefix of the shape
external call, then insert, then counter update. -/
def orderedCountLimited (t : List Event) : Bool :=
  match t with
  | [] => true
  | [Event.extCall _] => true
  | [Event.extCall _, Event.insert _] => true
  | [Event.extCall _, Event.insert _, Event.counterUpdate _ _] => true
  | _ => false

/-- The uniform response envelope: status 200, and either a success body
carrying `content` and no `message`, or a failure body carrying `message`
and no `content`. -/
def envelopeB (r : HttpResponse) : Bool :=
  r.statusCode == 200 &&
    ((r.success && r.content.isSome && r.message == none) ||
     (!r.success && r.message.isSome && r.content == none))

/-- A creation row attributed to caller `uid` with one of the four row
types the controller writes. -/
def wellFormedRow (uid : String) (c : Creation) : Bool :=
  c.user_id == uid &&
    (c.type == "article" || c.type == "blog-title" ||
     c.type == "image" || c.type == "resume-review")

/-- Exhaustive case analysis of `generateArticle`: quota denial, completion
failure, insert failure, non-premium success (with counter update) or
premium success (without). -/
lemma generateArticle_spec (g : Gateways) (a : ArticleReq) :
    (a.plan ≠ "premium" ∧ 5 ≤ a.free_usage ∧
      generateArticle g a = ⟨jsonFail limitMsg, []⟩) ∨
    (∃ e, generateArticle g a = ⟨jsonFail e, [.extCall "gemini"]⟩) ∨
    (∃ e content,
      g.sqlInsertCreations ⟨a.userId, a.prompt, content, "article", false⟩ = .ok () ∧
      generateArticle g a =
        ⟨jsonFail e, [.extCall "gemini",
          .insert ⟨a.userId, a.prompt, content, "article", false⟩]⟩) ∨
    (∃ content,
      a.plan ≠ "premium" ∧
      g.sqlInsertCreations ⟨a.userId, a.prompt, content, "article", false⟩ = .ok () ∧
      generateArticle g a =
        ⟨jsonOk content, [.extCall "gemini",
          .insert ⟨a.userId, a.prompt, content, "article", false⟩,
          .counterUpdate a.userId (a.free_usage + 1)]⟩) ∨
    (∃ content,
      a.plan = "premium" ∧
      g.sqlInsertCreations ⟨a.userId, a.prompt, content, "article", false⟩ = .ok () ∧
      generateArticle g a =
        ⟨jsonOk content, [.extCall "gemini",
          .insert ⟨a.userId, a.prompt, content, "article", false⟩]⟩) := by
  by_cases hq : a.plan ≠ "premium" ∧ 5 ≤ a.free_usage
  · exact Or.inl ⟨hq.1, hq.2, by simp [generateArticle, hq.1, hq.2]⟩
  · cases hchat : g.chatCompletion a.prompt a.length with
    | error e =>
        exact Or.inr (Or.inl ⟨e, by simp [generateArticle, hq, hchat]⟩)
    | ok content =>
        cases hins : g.sqlInsertCreations ⟨a.userId, a.prompt, content, "article", false⟩ with
        | error e =>
            exact Or.inr (Or.inl ⟨e, by simp [generateArticle, hq, hchat, hins]⟩)
        | ok u =>
            cases u
            by_cases hp : a.plan ≠ "premium"
            · have hnle : ¬ 5 ≤ a.free_usage := fun hge => hq ⟨hp, hge⟩
              cases hupd : g.updateUserMetadata a.userId (a.free_usage + 1) with
              | error e =>
                  exact Or.inr (Or.inr (Or.inl ⟨e, content, hins, by
                    simp [generateArticle, hnle, hp, hchat, hins, hupd]⟩))
              | ok v =>
                  cases v
                  exact Or.inr (Or.inr (Or.inr (Or.inl ⟨content, hp, hins, by
                    simp [generateArticle, hnle, hp, hchat, hins, hupd]⟩)))
            · have hpe : a.plan = "premium" := not_not.mp hp
              exact Or.inr (Or.inr (Or.inr (Or.inr ⟨content, hpe, hins, by
                simp [generateArticle, hq, hpe, hchat, hins]⟩)))

/-- Exhaustive case analysis of `generateBlogTitle`, mirroring
`generateArticle_spec`. -/
lemma generateBlogTitle_spec (g : Gateways) (b : BlogTitleReq) :
    (b.plan ≠ "premium" ∧ 5 ≤ b.free_usage ∧
      generateBlogTitle g b = ⟨jsonFail limitMsg, []⟩) ∨
    (∃ e, generateBlogTitle g b = ⟨jsonFail e, [.extCall "gemini"]⟩) ∨
    (∃ e content,
      g.sqlInsertCreations ⟨b.userId, b.prompt, content, "blog-title", false⟩ = .ok () ∧
      generateBlogTitle g b =
        ⟨jsonFail e, [.extCall "gemini",
          .insert ⟨b.userId, b.prompt, content, "blog-title", false⟩]⟩) ∨
    (∃ content,
      b.plan ≠ "premium" ∧
      g.sqlInsertCreations ⟨b.userId, b.prompt, content, "blog-title", false⟩ = .ok () ∧
      generateBlogTitle g b =
        ⟨jsonOk content, [.extCall "gemini",
          .insert ⟨b.userId, b.prompt, content, "blog-title", false⟩,
          .counterUpdate b.userId (b.free_usage + 1)]⟩) ∨
    (∃ content,
      b.plan = "premium" ∧
      g.sqlInsertCreations ⟨b.userId, b.prompt, content, "blog-title", false⟩ = .ok () ∧
      generateBlogTitle g b =
        ⟨jsonOk content, [.extCall "gemini",
          .insert ⟨b.userId, b.prompt, content, "blog-title", false⟩]⟩) := by
  by_cases hq : b.plan ≠ "premium" ∧ 5 ≤ b.free_usage
  · exact Or.inl ⟨hq.1, hq.2, by simp [generateBlogTitle, hq.1, hq.2]⟩
  · cases hchat : g.chatCompletion b.prompt 100 with
    | error e =>
        exact Or.inr (Or.inl ⟨e, by simp [generateBlogTitle, hq, hchat]⟩)
    | ok content =>
        cases hins : g.sqlInsertCreations ⟨b.userId, b.prompt, content, "blog-title", false⟩ with
        | error e =>
            exact Or.inr (Or.inl ⟨e, by simp [generateBlogTitle, hq, hchat, hins]⟩)
        | ok u =>
            cases u
            by_cases hp : b.plan ≠ "premium"
            · have hnle : ¬ 5 ≤ b.free_usage := fun hge => hq ⟨hp, hge⟩
              cases hupd : g.updateUserMetadata b.userId (b.free_usage + 1) with
              | error e =>
                  exact Or.inr (Or.inr (Or.inl ⟨e, content, hins, by
                    simp [generateBlogTitle, hnle, hp, hchat, hins, hupd]⟩))
              | ok v =>
                  cases v
                  exact Or.inr (Or.inr (Or.inr (Or.inl ⟨content, hp, hins, by
                    simp [generateBlogTitle, hnle, hp, hchat, hins, hupd]⟩)))
            · have hpe : b.plan = "premium" := not_not.mp hp
              exact Or.inr (Or.inr (Or.inr (Or.inr ⟨content, hpe, hins, by
                simp [generateBlogTitle, hq, hpe, hchat, hins]⟩)))

/-- Exhaustive case analysis of `generateImage`: plan denial, render
failure, upload or insert failure, or success with two external calls and
one insert whose `publish` column is the request flag defaulted to false. -/
lemma generateImage_spec (g : Gateways) (i : ImageReq) :
    (i.plan ≠ "premium" ∧ generateImage g i = ⟨jsonFail premiumMsg, []⟩) ∨
    (∃ e, generateImage g i = ⟨jsonFail e, [.extCall "pollinations"]⟩) ∨
    (∃ e, generateImage g i =
      ⟨jsonFail e, [.extCall "pollinations", .extCall "cloudinary"]⟩) ∨
    (∃ url, i.plan = "premium" ∧
      generateImage g i =
        ⟨jsonOk url, [.extCall "pollinations", .extCall "cloudinary",
          .insert ⟨i.userId, i.prompt, url, "image", i.publish.getD false⟩]⟩) := by
  by_cases hp : i.plan ≠ "premium"
  · exact Or.inl ⟨hp, by simp [generateImage, hp]⟩
  · have hpe : i.plan = "premium" := not_not.mp hp
    cases haxios : g.axiosGetImage
        ("https://image.pollinations.ai/prompt/" ++ g.encodeURIComponent i.prompt
          ++ "?width=1024&height=1024&nologo=true") with
    | error e => exact Or.inr (Or.inl ⟨e, by simp [generateImage, hpe, haxios]⟩)
    | ok data =>
      cases hup : g.cloudinaryUploadBase64 ("data:image/png;base64," ++ g.toBase64 data) with
      | error e =>
          exact Or.inr (Or.inr (Or.inl ⟨e, by simp [generateImage, hpe, haxios, hup]⟩))
      | ok url =>
        cases hins : g.sqlInsertCreations
            ⟨i.userId, i.prompt, url, "image", i.publish.getD false⟩ with
        | error e =>
            exact Or.inr (Or.inr (Or.inl ⟨e, by
              simp [generateImage, hpe, haxios, hup, hins]⟩))
        | ok u =>
            cases u
            exact Or.inr (Or.inr (Or.inr ⟨url, hpe, by
              simp [generateImage, hpe, haxios, hup, hins]⟩))

/-- Exhaustive case analysis of `removeImageBackground`: plan denial,
missing file, upload or insert failure, or success with one external call
and one insert. -/
lemma removeImageBackground_spec (g : Gateways) (r : FileReq) :
    (r.plan ≠ "premium" ∧ removeImageBackground g r = ⟨jsonFail premiumMsg, []⟩) ∨
    (r.file = none ∧ removeImageBackground g r = ⟨jsonFail noFileMsg, []⟩) ∨
    (∃ e, removeImageBackground g r = ⟨jsonFail e, [.extCall "cloudinary"]⟩) ∨
    (∃ url, removeImageBackground g r =
      ⟨jsonOk url, [.extCall "cloudinary",
        .insert ⟨r.userId, "Remove background from image", url, "image", false⟩]⟩) := by
  by_cases hp : r.plan ≠ "premium"
  · exact Or.inl ⟨hp, by simp [removeImageBackground, hp]⟩
  · have hpe : r.plan = "premium" := not_not.mp hp
    cases hf : r.file with
    | none => exact Or.inr (Or.inl ⟨rfl, by simp [removeImageBackground, hpe, hf]⟩)
    | some f =>
      cases hup : g.cloudinaryUploadBgRemoval f.path with
      | error e =>
          exact Or.inr (Or.inr (Or.inl ⟨e, by
            simp [removeImageBackground, hpe, hf, hup]⟩))
      | ok url =>
        cases hins : g.sqlInsertCreations
            ⟨r.userId, "Remove background from image", url, "image", false⟩ with
        | error e =>
            exact Or.inr (Or.inr (Or.inl ⟨e, by
              simp [removeImageBackground, hpe, hf, hup, hins]⟩))
        | ok u =>
            cases u
            exact Or.inr (Or.inr (Or.inr ⟨url, by
              simp [removeImageBackground, hpe, hf, hup, hins]⟩))

/-- Exhaustive case analysis of `removeImageObject`: plan denial, missing
file, upload or insert failure, or success with one external call (the
transformed URL is constructed locally) and one insert. -/
lemma removeImageObject_spec (g : Gateways) (o : ObjectReq) :
    (o.plan ≠ "premium" ∧ removeImageObject g o = ⟨jsonFail premiumMsg, []⟩) ∨
    (o.file = none ∧ removeImageObject g o = ⟨jsonFail noFileMsg, []⟩) ∨
    (∃ e, removeImageObject g o = ⟨jsonFail e, [.extCall "cloudinary"]⟩) ∨
    (∃ pid, removeImageObject g o =
      ⟨jsonOk (g.cloudinaryUrl pid o.object), [.extCall "cloudinary",
        .insert ⟨o.userId, "Removed " ++ o.object ++ " from image",
          g.cloudinaryUrl pid o.object, "image", false⟩]⟩) := by
  by_cases hp : o.plan ≠ "premium"
  · exact Or.inl ⟨hp, by simp [removeImageObject, hp]⟩
  · have hpe : o.plan = "premium" := not_not.mp hp
    cases hf : o.file with
    | none => exact Or.inr (Or.inl ⟨rfl, by simp [removeImageObject, hpe, hf]⟩)
    | some f =>
      cases hup : g.cloudinaryUploadPath f.path with
      | error e =>
          exact Or.inr (Or.inr (Or.inl ⟨e, by
            simp [removeImageObject, hpe, hf, hup]⟩))
      | ok pid =>
        cases hins : g.sqlInsertCreations
            ⟨o.userId, "Removed " ++ o.object ++ " from image",
              g.cloudinaryUrl pid o.object, "image", false⟩ with
        | error e =>
            exact Or.inr (Or.inr (Or.inl ⟨e, by
              simp [removeImageObject, hpe, hf, hup, hins]⟩))
        | ok u =>
            cases u
            exact Or.inr (Or.inr (Or.inr ⟨pid, by
              simp [removeImageObject, hpe, hf, hup, hins]⟩))

/-- Exhaustive case analysis of `resumeReview`: plan denial, the thrown
TypeError on a missing file, size rejection, filesystem read failure,
extraction, completion or insert failure, or success. -/
lemma resumeReview_spec (g : Gateways) (r : FileReq) :
    (r.plan ≠ "premium" ∧ resumeReview g r = ⟨jsonFail premiumMsg, []⟩) ∨
    (r.plan = "premium" ∧ r.file = none ∧
      resumeReview g r = ⟨jsonFail undefinedSizeMsg, []⟩) ∨
    (∃ f, r.file = some f ∧ 5 * 1024 * 1024 < f.size ∧
      resumeReview g r = ⟨jsonFail resumeSizeMsg, []⟩) ∨
    (∃ e, resumeReview g r = ⟨jsonFail e, []⟩) ∨
    (∃ e, resumeReview g r = ⟨jsonFail e, [.extCall "pdf-parse"]⟩) ∨
    (∃ e, resumeReview g r = ⟨jsonFail e, [.extCall "pdf-parse", .extCall "gemini"]⟩) ∨
    (∃ content, resumeReview g r =
      ⟨jsonOk content, [.extCall "pdf-parse", .extCall "gemini",
        .insert ⟨r.userId, "Review the uploaded resume", content,
          "resume-review", false⟩]⟩) := by
  by_cases hp : r.plan ≠ "premium"
  · exact Or.inl ⟨hp, by simp [resumeReview, hp]⟩
  · have hpe : r.plan = "premium" := not_not.mp hp
    cases hf : r.file with
    | none => exact Or.inr (Or.inl ⟨hpe, rfl, by simp [resumeReview, hpe, hf]⟩)
    | some f =>
      by_cases hsz : 5 * 1024 * 1024 < f.size
      · exact Or.inr (Or.inr (Or.inl ⟨f, rfl, hsz, by simp [resumeReview, hpe, hf, hsz]⟩))
      · cases hread : g.readFileSync f.path with
        | error e =>
            exact Or.inr (Or.inr (Or.inr (Or.inl ⟨e, by
              simp [resumeReview, hpe, hf, hsz, hread]⟩)))
        | ok buf =>
          cases hpdf : g.pdfParse buf with
          | error e =>
              exact Or.inr (Or.inr (Or.inr (Or.inr (Or.inl ⟨e, by
                simp [resumeReview, hpe, hf, hsz, hread, hpdf]⟩))))
          | ok text =>
            cases hchat : g.chatCompletion (resumePromptTemplate text) 1000 with
            | error e =>
                exact Or.inr (Or.inr (Or.inr (Or.inr (Or.inr (Or.inl ⟨e, by
                  simp [resumeReview, hpe, hf, hsz, hread, hpdf, hchat]⟩)))))
            | ok content =>
              cases hins : g.sqlInsertCreations
                  ⟨r.userId, "Review the uploaded resume", content,
                    "resume-review", false⟩ with
              | error e =>
                  exact Or.inr (Or.inr (Or.inr (Or.inr (Or.inr (Or.inl ⟨e, by
                    simp [resumeReview, hpe, hf, hsz, hread, hpdf, hchat, hins]⟩)))))
              | ok u =>
                  cases u
                  exact Or.inr (Or.inr (Or.inr (Or.inr (Or.inr (Or.inr ⟨content, by
                    simp [resumeReview, hpe, hf, hsz, hread, hpdf, hchat, hins]⟩)))))

/-- A successful `generateArticle` run made the completion call, inserted
exactly the article row, and updated the counter exactly when the caller is
not premium. -/
lemma generateArticle_success (g : Gateways) (a : ArticleReq)
    (h : (generateArticle g a).response.success = true) :
    ∃ content,
      g.sqlInsertCreations ⟨a.userId, a.prompt, content, "article", false⟩ = .ok () ∧
      generateArticle g a =
        ⟨jsonOk content,
          [.extCall "gemini", .insert ⟨a.userId, a.prompt, content, "article", false⟩] ++
          (if a.plan = "premium" then []
           else [.counterUpdate a.userId (a.free_usage + 1)])⟩ := by
  rcases generateArticle_spec g a with
      ⟨_, _, heq⟩ | ⟨_, heq⟩ | ⟨_, _, _, heq⟩ | ⟨c, hp, hins, heq⟩ | ⟨c, hp, hins, heq⟩
  · rw [heq] at h; simp [jsonFail] at h
  · rw [heq] at h; simp [jsonFail] at h
  · rw [heq] at h; simp [jsonFail] at h
  · exact ⟨c, hins, by rw [heq]; simp [hp]⟩
  · exact ⟨c, hins, by rw [heq]; simp [hp]⟩

/-- A successful `generateBlogTitle` run made the completion call, inserted
exactly the blog-title row, and updated the counter exactly when the caller
is not premium. -/
lemma generateBlogTitle_success (g : Gateways) (b : BlogTitleReq)
    (h : (generateBlogTitle g b).response.success = true) :
    ∃ content,
      g.sqlInsertCreations ⟨b.userId, b.prompt, content, "blog-title", false⟩ = .ok () ∧
      generateBlogTitle g b =
        ⟨jsonOk content,
          [.extCall "gemini", .insert ⟨b.userId, b.prompt, content, "blog-title", false⟩] ++
          (if b.plan = "premium" then []
           else [.counterUpdate b.userId (b.free_usage + 1)])⟩ := by
  rcases generateBlogTitle_spec g b with
      ⟨_, _, heq⟩ | ⟨_, heq⟩ | ⟨_, _, _, heq⟩ | ⟨c, hp, hins, heq⟩ | ⟨c, hp, hins, heq⟩
  · rw [heq] at h; simp [jsonFail] at h
  · rw [heq] at h; simp [jsonFail] at h
  · rw [heq] at h; simp [jsonFail] at h
  · exact ⟨c, hins, by rw [heq]; simp [hp]⟩
  · exact ⟨c, hins, by rw [heq]; simp [hp]⟩

/-- A successful `generateImage` run issued the render and upload calls and
inserted exactly one image row. -/
lemma generateImage_success (g : Gateways) (i : ImageReq)
    (h : (generateImage g i).response.success = true) :
    ∃ url, generateImage g i =
      ⟨jsonOk url, [.extCall "pollinations", .extCall "cloudinary",
        .insert ⟨i.userId, i.prompt, url, "image", i.publish.getD false⟩]⟩ := by
  rcases generateImage_spec g i with ⟨_, heq⟩ | ⟨_, heq⟩ | ⟨_, heq⟩ | ⟨url, _, heq⟩
  · rw [heq] at h; simp [jsonFail] at h
  · rw [heq] at h; simp [jsonFail] at h
  · rw [heq] at h; simp [jsonFail] at h
  · exact ⟨url, heq⟩

/-- A successful `removeImageBackground` run issued one upload call and
inserted exactly one image row. -/
lemma removeImageBackground_success (g : Gateways) (r : FileReq)
    (h : (removeImageBackground g r).response.success = true) :
    ∃ url, removeImageBackground g r =
      ⟨jsonOk url, [.extCall "cloudinary",
        .insert ⟨r.userId, "Remove background from image", url, "image", false⟩]⟩ := by
  rcases removeImageBackground_spec g r with ⟨_, heq⟩ | ⟨_, heq⟩ | ⟨_, heq⟩ | ⟨url, heq⟩
  · rw [heq] at h; simp [jsonFail] at h
  · rw [heq] at h; simp [jsonFail] at h
  · rw [heq] at h; simp [jsonFail] at h
  · exact ⟨url, heq⟩

/-- A successful `removeImageObject` run issued one upload call and
inserted exactly one image row. -/
lemma removeImageObject_success (g : Gateways) (o : ObjectReq)
    (h : (removeImageObject g o).response.success = true) :
    ∃ pid, removeImageObject g o =
      ⟨jsonOk (g.cloudinaryUrl pid o.object), [.extCall "cloudinary",
        .insert ⟨o.userId, "Removed " ++ o.object ++ " from image",
          g.cloudinaryUrl pid o.object, "image", false⟩]⟩ := by
  rcases removeImageObject_spec g o with ⟨_, heq⟩ | ⟨_, heq⟩ | ⟨_, heq⟩ | ⟨pid, heq⟩
  · rw [heq] at h; simp [jsonFail] at h
  · rw [heq] at h; simp [jsonFail] at h
  · rw [heq] at h; simp [jsonFail] at h
  · exact ⟨pid, heq⟩

/-- A successful `resumeReview` run issued the extraction and completion
calls and inserted exactly one resume-review row. -/
lemma resumeReview_success (g : Gateways) (r : FileReq)
    (h : (resumeReview g r).response.success = true) :
    ∃ content, resumeReview g r =
      ⟨jsonOk content, [.extCall "pdf-parse", .extCall "gemini",
        .insert ⟨r.userId, "Review the uploaded resume", content,
          "resume-review", false⟩]⟩ := by
  rcases resumeReview_spec g r with
      ⟨_, heq⟩ | ⟨_, _, heq⟩ | ⟨_, _, _, heq⟩ | ⟨_, heq⟩ | ⟨_, heq⟩ | ⟨_, heq⟩ | ⟨c, heq⟩
  · rw [heq] at h; simp [jsonFail] at h
  · rw [heq] at h; simp [jsonFail] at h
  · rw [heq] at h; simp [jsonFail] at h
  · rw [heq] at h; simp [jsonFail] at h
  · rw [heq] at h; simp [jsonFail] at h
  · rw [heq] at h; simp [jsonFail] at h
  · exact ⟨c, heq⟩

/-- Concrete requests used to evaluate the handlers. -/
def aLimited : ArticleReq := ⟨"u1", "write about cats", 300, "free", 5⟩

def bLimited : BlogTitleReq := ⟨"u1", "cat blog", "free", 6⟩

def aFree0 : ArticleReq := ⟨"u1", "write about cats", 300, "free", 0⟩

def bFree0 : BlogTitleReq := ⟨"u1", "cat blog", "free", 0⟩

def aPrem : ArticleReq := ⟨"u1", "write about cats", 300, "premium", 0⟩

def bPrem : BlogTitleReq := ⟨"u1", "cat blog", "premium", 0⟩

def iFree : ImageReq := ⟨"u1", "a cat", none, "free"⟩

def iPrem : ImageReq := ⟨"u1", "a cat", none, "premium"⟩

def bgFree : FileReq := ⟨"u1", "free", some ⟨"img.png", 100⟩⟩

def bgPrem : FileReq := ⟨"u1", "premium", some ⟨"img.png", 100⟩⟩

def obFree : ObjectReq := ⟨"u1", "chair", "free", some ⟨"img.png", 100⟩⟩

def obPrem : ObjectReq := ⟨"u1", "chair", "premium", some ⟨"img.png", 100⟩⟩

def rvFree : FileReq := ⟨"u1", "free", some ⟨"resume.pdf", 1000⟩⟩

def rvPrem : FileReq := ⟨"u1", "premium", some ⟨"resume.pdf", 1000⟩⟩

def rvBig : FileReq := ⟨"u1", "premium", some ⟨"big.pdf", 5 * 1024 * 1024 + 1⟩⟩

def rvNoFile : FileReq := ⟨"u1", "premium", none⟩

def bgNoFile : FileReq := ⟨"u1", "premium", none⟩

/-- C1: For every article or blog-title request by a caller whose plan is
not "premium" and whose free-usage counter is at least 5, the handler
returns success=false with the message "Limit reached. Upgrade to
Continue." and performs no external completion call, no Creation insert,
and no counter update (the effect trace is empty). -/
theorem c1_quota_denied_no_effects (g : Gateways) (a : ArticleReq) (b : BlogTitleReq)
    (ha1 : a.plan ≠ "premium") (ha2 : 5 ≤ a.free_usage)
    (hb1 : b.plan ≠ "premium") (hb2 : 5 ≤ b.free_usage) :
    generateArticle g a = ⟨jsonFail limitMsg, []⟩ ∧
    generateBlogTitle g b = ⟨jsonFail limitMsg, []⟩ := by
  constructor
  · simp [generateArticle, ha1, ha2]
  · simp [generateBlogTitle, hb1, hb2]

/-- Witness for C1: a free-plan caller at usage 5 (article) and 6
(blog title) is denied with an empty trace. -/
theorem c1_quota_denied_no_effects_witness :
    (aLimited.plan ≠ "premium" ∧ 5 ≤ aLimited.free_usage ∧
      bLimited.plan ≠ "premium" ∧ 5 ≤ bLimited.free_usage) ∧
    generateArticle gOK aLimited = ⟨jsonFail limitMsg, []⟩ ∧
    generateBlogTitle gOK bLimited = ⟨jsonFail limitMsg, []⟩ :=
  ⟨by decide,
    c1_quota_denied_no_effects gOK aLimited bLimited
      (by decide) (by decide) (by decide) (by decide)⟩

/-- C2: Every premium-only action (image generation, background removal,
object removal, resume review) requested by a caller whose plan is not
"premium" returns success=false with the plan-required message, for any
usage count, with an empty effect trace. -/
theorem c2_premium_required_no_effects (g : Gateways) (i : ImageReq)
    (bg : FileReq) (ob : ObjectReq) (rv : FileReq)
    (hi : i.plan ≠ "premium") (hbg : bg.plan ≠ "premium")
    (hob : ob.plan ≠ "premium") (hrv : rv.plan ≠ "premium") :
    generateImage g i = ⟨jsonFail premiumMsg, []⟩ ∧
    removeImageBackground g bg = ⟨jsonFail premiumMsg, []⟩ ∧
    removeImageObject g ob = ⟨jsonFail premiumMsg, []⟩ ∧
    resumeReview g rv = ⟨jsonFail premiumMsg, []⟩ := by
  refine ⟨?_, ?_, ?_, ?_⟩
  · simp [generateImage, hi]
  · simp [removeImageBackground, hbg]
  · simp [removeImageObject, hob]
  · simp [resumeReview, hrv]

/-- Witness for C2: free-plan callers are denied all four premium-only
actions with an empty trace. -/
theorem c2_premium_required_no_effects_witness :
    (iFree.plan ≠ "premium" ∧ bgFree.plan ≠ "premium" ∧
      obFree.plan ≠ "premium" ∧ rvFree.plan ≠ "premium") ∧
    generateImage gOK iFree = ⟨jsonFail premiumMsg, []⟩ ∧
    removeImageBackground gOK bgFree = ⟨jsonFail premiumMsg, []⟩ ∧
    removeImageObject gOK obFree = ⟨jsonFail premiumMsg, []⟩ ∧
    resumeReview gOK rvFree = ⟨jsonFail premiumMsg, []⟩ :=
  ⟨by decide,
    c2_premium_required_no_effects gOK iFree bgFree obFree rvFree
      (by decide) (by decide) (by decide) (by decide)⟩

/-- C3: A successful article or blog-title action inserts exactly one
Creation row; a non-premium caller's stored free-usage counter is
overwritten exactly once with its old value plus 1, while a premium
caller's counter is never updated. -/
theorem c3_success_one_insert_one_increment (g : Gateways)
    (a : ArticleReq) (b : BlogTitleReq)
    (ha : (generateArticle g a).response.success = true)
    (hb : (generateBlogTitle g b).response.success = true) :
    (insertsOf (generateArticle g a).trace).length = 1 ∧
    counterUpdatesOf (generateArticle g a).trace =
      (if a.plan = "premium" then [] else [(a.userId, a.free_usage + 1)]) ∧
    (insertsOf (generateBlogTitle g b).trace).length = 1 ∧
    counterUpdatesOf (generateBlogTitle g b).trace =
      (if b.plan = "premium" then [] else [(b.userId, b.free_usage + 1)]) := by
  obtain ⟨ca, hinsa, heqa⟩ := generateArticle_success g a ha
  obtain ⟨cb, hinsb, heqb⟩ := generateBlogTitle_success g b hb
  rw [heqa, heqb]
  by_cases hpa : a.plan = "premium" <;> by_cases hpb : b.plan = "premium" <;>
    simp [hpa, hpb, insertsOf, counterUpdatesOf]

/-- Witness for C3: with all-succeeding gateways, a free-plan caller at
usage 0 gets one inserted row and one counter write of value 1. -/
theorem c3_success_one_insert_one_increment_witness :
    ((generateArticle gOK aFree0).response.success = true ∧
      (generateBlogTitle gOK bFree0).response.success = true) ∧
    (insertsOf (generateArticle gOK aFree0).trace).length = 1 ∧
    counterUpdatesOf (generateArticle gOK aFree0).trace =
      (if aFree0.plan = "premium" then [] else [(aFree0.userId, aFree0.free_usage + 1)]) ∧
    (insertsOf (generateBlogTitle gOK bFree0).trace).length = 1 ∧
    counterUpdatesOf (generateBlogTitle gOK bFree0).trace =
      (if bFree0.plan = "premium" then [] else [(bFree0.userId, bFree0.free_usage + 1)]) :=
  ⟨⟨by decide, by decide⟩,
    c3_success_one_insert_one_increment gOK aFree0 bFree0 (by decide) (by decide)⟩

/-- C4: The count-limited handlers perform their effects in the order
external call, then insert, then counter update (every trace is a prefix
of that shape); and when every insert throws, no counter update is
recorded and the request fails, so a failed persist never consumes
quota. -/
theorem c4_effect_order_and_insert_failure (g : Gateways)
    (a : ArticleReq) (b : BlogTitleReq) (e : String)
    (hf : ∀ c, g.sqlInsertCreations c = .error e) :
    (∀ (g2 : Gateways) (a2 : ArticleReq) (b2 : BlogTitleReq),
      orderedCountLimited (generateArticle g2 a2).trace = true ∧
      orderedCountLimited (generateBlogTitle g2 b2).trace = true) ∧
    counterUpdatesOf (generateArticle g a).trace = [] ∧
    (generateArticle g a).response.success = false ∧
    counterUpdatesOf (generateBlogTitle g b).trace = [] ∧
    (generateBlogTitle g b).response.success = false := by
  refine ⟨fun g2 a2 b2 => ⟨?_, ?_⟩, ?_, ?_, ?_, ?_⟩
  · rcases generateArticle_spec g2 a2 with
        ⟨_, _, heq⟩ | ⟨_, heq⟩ | ⟨_, _, _, heq⟩ | ⟨_, _, _, heq⟩ | ⟨_, _, _, heq⟩ <;>
      simp [heq, orderedCountLimited]
  · rcases generateBlogTitle_spec g2 b2 with
        ⟨_, _, heq⟩ | ⟨_, heq⟩ | ⟨_, _, _, heq⟩ | ⟨_, _, _, heq⟩ | ⟨_, _, _, heq⟩ <;>
      simp [heq, orderedCountLimited]
  · rcases generateArticle_spec g a with
        ⟨_, _, heq⟩ | ⟨_, heq⟩ | ⟨_, _, hins, heq⟩ | ⟨_, _, hins, heq⟩ | ⟨_, _, hins, heq⟩ <;>
      first
        | (rw [hf] at hins; simp at hins)
        | simp [heq, counterUpdatesOf]
  · rcases generateArticle_spec g a with
        ⟨_, _, heq⟩ | ⟨_, heq⟩ | ⟨_, _, hins, heq⟩ | ⟨_, _, hins, heq⟩ | ⟨_, _, hins, heq⟩ <;>
      first
        | (rw [hf] at hins; simp at hins)
        | simp [heq, jsonFail]
  · rcases generateBlogTitle_spec g b with
        ⟨_, _, heq⟩ | ⟨_, heq⟩ | ⟨_, _, hins, heq⟩ | ⟨_, _, hins, heq⟩ | ⟨_, _, hins, heq⟩ <;>
      first
        | (rw [hf] at hins; simp at hins)
        | simp [heq, counterUpdatesOf]
  · rcases generateBlogTitle_spec g b with
        ⟨_, _, heq⟩ | ⟨_, heq⟩ | ⟨_, _, hins, heq⟩ | ⟨_, _, hins, heq⟩ | ⟨_, _, hins, heq⟩ <;>
      first
        | (rw [hf] at hins; simp at hins)
        | simp [heq, jsonFail]

/-- Witness for C4: with gateways whose every insert throws, a free-plan
caller at usage 0 gets a failed response and no counter write. -/
theorem c4_effect_order_and_insert_failure_witness :
    (∀ c, gInsertFail.sqlInsertCreations c = .error "insert failed") ∧
    ((∀ (g2 : Gateways) (a2 : ArticleReq) (b2 : BlogTitleReq),
      orderedCountLimited (generateArticle g2 a2).trace = true ∧
      orderedCountLimited (generateBlogTitle g2 b2).trace = true) ∧
    counterUpdatesOf (generateArticle gInsertFail aFree0).trace = [] ∧
    (generateArticle gInsertFail aFree0).response.success = false ∧
    counterUpdatesOf (generateBlogTitle gInsertFail bFree0).trace = [] ∧
    (generateBlogTitle gInsertFail bFree0).response.success = false) :=
  ⟨fun _ => rfl,
    c4_effect_order_and_insert_failure gInsertFail aFree0 bFree0 "insert failed"
      (fun _ => rfl)⟩

/-- C5: A premium caller's resume-review request whose uploaded file
exceeds 5 MiB is rejected with the size-limit message and an empty effect
trace — no filesystem read, no PDF extraction, no completion call, no
insert — for any gateway behavior, hence for any file content. -/
theorem c5_resume_size_limit (g : Gateways) (r : FileReq) (f : FileUpload)
    (hp : r.plan = "premium") (hf : r.file = some f)
    (hsz : 5 * 1024 * 1024 < f.size) :
    resumeReview g r = ⟨jsonFail resumeSizeMsg, []⟩ := by
  simp [resumeReview, hp, hf, hsz]

/-- Witness for C5: a premium caller uploading a file of 5 MiB + 1 byte is
rejected with an empty trace. -/
theorem c5_resume_size_limit_witness :
    (rvBig.plan = "premium" ∧ rvBig.file = some ⟨"big.pdf", 5 * 1024 * 1024 + 1⟩ ∧
      5 * 1024 * 1024 < (5 * 1024 * 1024 + 1 : Nat)) ∧
    resumeReview gOK rvBig = ⟨jsonFail resumeSizeMsg, []⟩ :=
  ⟨by refine ⟨rfl, rfl, by decide⟩,
    c5_resume_size_limit gOK rvBig ⟨"big.pdf", 5 * 1024 * 1024 + 1⟩ rfl rfl (by decide)⟩

/-- C6: Every response of any of the six handlers — success or any failure
(quota denied, premium required, bad payload, or a thrown gateway,
persistence or quota-update error) — is a JSON envelope with HTTP status
200 that is either success=true with a content string or success=false
with a message string; the handlers are total functions of the request and
the gateway oracles, so no exception escapes the handler boundary. -/
theorem c6_uniform_envelope (g : Gateways) (a : ArticleReq) (b : BlogTitleReq)
    (i : ImageReq) (bg : FileReq) (ob : ObjectReq) (rv : FileReq) :
    envelopeB (generateArticle g a).response = true ∧
    envelopeB (generateBlogTitle g b).response = true ∧
    envelopeB (generateImage g i).response = true ∧
    envelopeB (removeImageBackground g bg).response = true ∧
    envelopeB (removeImageObject g ob).response = true ∧
    envelopeB (resumeReview g rv).response = true := by
  refine ⟨?_, ?_, ?_, ?_, ?_, ?_⟩
  · rcases generateArticle_spec g a with
        ⟨_, _, heq⟩ | ⟨_, heq⟩ | ⟨_, _, _, heq⟩ | ⟨_, _, _, heq⟩ | ⟨_, _, _, heq⟩ <;>
      simp [heq, envelopeB, jsonFail, jsonOk]
  · rcases generateBlogTitle_spec g b with
        ⟨_, _, heq⟩ | ⟨_, heq⟩ | ⟨_, _, _, heq⟩ | ⟨_, _, _, heq⟩ | ⟨_, _, _, heq⟩ <;>
      simp [heq, envelopeB, jsonFail, jsonOk]
  · rcases generateImage_spec g i with ⟨_, heq⟩ | ⟨_, heq⟩ | ⟨_, heq⟩ | ⟨_, _, heq⟩ <;>
      simp [heq, envelopeB, jsonFail, jsonOk]
  · rcases removeImageBackground_spec g bg with ⟨_, heq⟩ | ⟨_, heq⟩ | ⟨_, heq⟩ | ⟨_, heq⟩ <;>
      simp [heq, envelopeB, jsonFail, jsonOk]
  · rcases removeImageObject_spec g ob with ⟨_, heq⟩ | ⟨_, heq⟩ | ⟨_, heq⟩ | ⟨_, heq⟩ <;>
      simp [heq, envelopeB, jsonFail, jsonOk]
  · rcases resumeReview_spec g rv with
        ⟨_, heq⟩ | ⟨_, _, heq⟩ | ⟨_, _, _, heq⟩ | ⟨_, heq⟩ | ⟨_, heq⟩ | ⟨_, heq⟩ | ⟨_, heq⟩ <;>
      simp [heq, envelopeB, jsonFail, jsonOk]

/-- C7 counterexample: the image-generation handler's success path issues
two delegated external calls (the text-to-image render and the asset-host
upload), refuting "no handler issues more than one external call on its
success path". -/
theorem c7_counterexample :
    (generateImage gOK iPrem).response.success = true ∧
    extCallCount (generateImage gOK iPrem).trace = 2 := by
  decide

/-- C7 amended: on their success paths the article, blog-title,
background-removal and object-removal handlers issue exactly one delegated
external call, while image generation issues exactly two (render, then
asset upload) and resume review issues exactly two (document extraction,
then text completion). -/
theorem c7_extcall_counts (g : Gateways) (a : ArticleReq) (b : BlogTitleReq)
    (i : ImageReq) (bg : FileReq) (ob : ObjectReq) (rv : FileReq)
    (ha : (generateArticle g a).response.success = true)
    (hb : (generateBlogTitle g b).response.success = true)
    (hi : (generateImage g i).response.success = true)
    (hbg : (removeImageBackground g bg).response.success = true)
    (hob : (removeImageObject g ob).response.success = true)
    (hrv : (resumeReview g rv).response.success = true) :
    extCallCount (generateArticle g a).trace = 1 ∧
    extCallCount (generateBlogTitle g b).trace = 1 ∧
    extCallCount (generateImage g i).trace = 2 ∧
    extCallCount (removeImageBackground g bg).trace = 1 ∧
    extCallCount (removeImageObject g ob).trace = 1 ∧
    extCallCount (resumeReview g rv).trace = 2 := by
  obtain ⟨ca, _, heqa⟩ := generateArticle_success g a ha
  obtain ⟨cb, _, heqb⟩ := generateBlogTitle_success g b hb
  obtain ⟨u1, heqi⟩ := generateImage_success g i hi
  obtain ⟨u2, heqbg⟩ := removeImageBackground_success g bg hbg
  obtain ⟨p1, heqob⟩ := removeImageObject_success g ob hob
  obtain ⟨cr, heqrv⟩ := resumeReview_success g rv hrv
  rw [heqa, heqb, heqi, heqbg, heqob, heqrv]
  by_cases hpa : a.plan = "premium" <;> by_cases hpb : b.plan = "premium" <;>
    simp [hpa, hpb, extCallCount]

/-- Witness for the amended C7: with all-succeeding gateways and premium
requests, all six handlers succeed and the external-call counts are
1, 1, 2, 1, 1, 2. -/
theorem c7_extcall_counts_witness :
    ((generateArticle gOK aPrem).response.success = true ∧
      (generateBlogTitle gOK bPrem).response.success = true ∧
      (generateImage gOK iPrem).response.success = true ∧
      (removeImageBackground gOK bgPrem).response.success = true ∧
      (removeImageObject gOK obPrem).response.success = true ∧
      (resumeReview gOK rvPrem).response.success = true) ∧
    extCallCount (generateArticle gOK aPrem).trace = 1 ∧
    extCallCount (generateBlogTitle gOK bPrem).trace = 1 ∧
    extCallCount (generateImage gOK iPrem).trace = 2 ∧
    extCallCount (removeImageBackground gOK bgPrem).trace = 1 ∧
    extCallCount (removeImageObject gOK obPrem).trace = 1 ∧
    extCallCount (resumeReview gOK rvPrem).trace = 2 :=
  ⟨⟨by decide, by decide, by decide, by decide, by decide, by decide⟩,
    c7_extcall_counts gOK aPrem bPrem iPrem bgPrem obPrem rvPrem
      (by decide) (by decide) (by decide) (by decide) (by decide) (by decide)⟩

/-- C8: When the image-generation request omits the publish flag, any
Creation row the handler inserts has publish = false. -/
theorem c8_publish_defaults_false (g : Gateways) (i : ImageReq)
    (hpub : i.publish = none)
    (c : Creation) (hc : c ∈ insertsOf (generateImage g i).trace) :
    c.publish = false := by
  rcases generateImage_spec g i with ⟨_, heq⟩ | ⟨_, heq⟩ | ⟨_, heq⟩ | ⟨url, _, heq⟩
  · rw [heq] at hc; simp [insertsOf] at hc
  · rw [heq] at hc; simp [insertsOf] at hc
  · rw [heq] at hc; simp [insertsOf] at hc
  · rw [heq] at hc
    simp [insertsOf] at hc
    subst hc
    simp [hpub]

/-- Witness for C8: with all-succeeding gateways and an omitted publish
flag, the one inserted row has publish = false. -/
theorem c8_publish_defaults_false_witness :
    iPrem.publish = none ∧
    (⟨"u1", "a cat", "https://cdn.example/img.png", "image", false⟩ : Creation) ∈
      insertsOf (generateImage gOK iPrem).trace ∧
    Creation.publish ⟨"u1", "a cat", "https://cdn.example/img.png", "image", false⟩ = false :=
  ⟨rfl, by decide,
    c8_publish_defaults_false gOK iPrem rfl
      ⟨"u1", "a cat", "https://cdn.example/img.png", "image", false⟩ (by decide)⟩

/-- C9: Every Creation row inserted by any of the six handlers carries the
authenticated caller's user id and one of the four row types article,
blog-title, image, resume-review. -/
theorem c9_rows_attributed_and_typed (g : Gateways) (a : ArticleReq)
    (b : BlogTitleReq) (i : ImageReq) (bg : FileReq) (ob : ObjectReq) (rv : FileReq) :
    (insertsOf (generateArticle g a).trace).all (wellFormedRow a.userId) = true ∧
    (insertsOf (generateBlogTitle g b).trace).all (wellFormedRow b.userId) = true ∧
    (insertsOf (generateImage g i).trace).all (wellFormedRow i.userId) = true ∧
    (insertsOf (removeImageBackground g bg).trace).all (wellFormedRow bg.userId) = true ∧
    (insertsOf (removeImageObject g ob).trace).all (wellFormedRow ob.userId) = true ∧
    (insertsOf (resumeReview g rv).trace).all (wellFormedRow rv.userId) = true := by
  refine ⟨?_, ?_, ?_, ?_, ?_, ?_⟩
  · rcases generateArticle_spec g a with
        ⟨_, _, heq⟩ | ⟨_, heq⟩ | ⟨_, _, _, heq⟩ | ⟨_, _, _, heq⟩ | ⟨_, _, _, heq⟩ <;>
      simp [heq, insertsOf, wellFormedRow]
  · rcases generateBlogTitle_spec g b with
        ⟨_, _, heq⟩ | ⟨_, heq⟩ | ⟨_, _, _, heq⟩ | ⟨_, _, _, heq⟩ | ⟨_, _, _, heq⟩ <;>
      simp [heq, insertsOf, wellFormedRow]
  · rcases generateImage_spec g i with ⟨_, heq⟩ | ⟨_, heq⟩ | ⟨_, heq⟩ | ⟨_, _, heq⟩ <;>
      simp [heq, insertsOf, wellFormedRow]
  · rcases removeImageBackground_spec g bg with ⟨_, heq⟩ | ⟨_, heq⟩ | ⟨_, heq⟩ | ⟨_, heq⟩ <;>
      simp [heq, insertsOf, wellFormedRow]
  · rcases removeImageObject_spec g ob with ⟨_, heq⟩ | ⟨_, heq⟩ | ⟨_, heq⟩ | ⟨_, heq⟩ <;>
      simp [heq, insertsOf, wellFormedRow]
  · rcases resumeReview_spec g rv with
        ⟨_, heq⟩ | ⟨_, _, heq⟩ | ⟨_, _, _, heq⟩ | ⟨_, heq⟩ | ⟨_, heq⟩ | ⟨_, heq⟩ | ⟨_, heq⟩ <;>
      simp [heq, insertsOf, wellFormedRow]

/-- C10: A premium resume-review request with no uploaded file is not
answered with the dedicated "No image file uploaded." check the removal
handlers use; instead the thrown TypeError message from reading `size` of
the absent file is returned as the failure message, with no external call
and no insert, while `removeImageBackground` with no file returns
"No image file uploaded." -/
theorem c10_resume_missing_file_runtime_error (g : Gateways) (rv bg : FileReq)
    (hp : rv.plan = "premium") (hf : rv.file = none)
    (hbp : bg.plan = "premium") (hbf : bg.file = none) :
    resumeReview g rv = ⟨jsonFail undefinedSizeMsg, []⟩ ∧
    removeImageBackground g bg = ⟨jsonFail noFileMsg, []⟩ ∧
    undefinedSizeMsg ≠ noFileMsg := by
  refine ⟨?_, ?_, ?_⟩
  · simp [resumeReview, hp, hf]
  · simp [removeImageBackground, hbp, hbf]
  · decide

/-- Witness for C10: a premium caller with no file gets the runtime error
message from resume review and the dedicated message from background
removal. -/
theorem c10_resume_missing_file_runtime_error_witness :
    (rvNoFile.plan = "premium" ∧ rvNoFile.file = none ∧
      bgNoFile.plan = "premium" ∧ bgNoFile.file = none) ∧
    resumeReview gOK rvNoFile = ⟨jsonFail undefinedSizeMsg, []⟩ ∧
    removeImageBackground gOK bgNoFile = ⟨jsonFail noFileMsg, []⟩ ∧
    undefinedSizeMsg ≠ noFileMsg :=
  ⟨⟨rfl, rfl, rfl, rfl⟩,
    c10_resume_missing_file_runtime_error gOK rvNoFile bgNoFile rfl rfl rfl rfl⟩

end QuickAI
